import Mathlib

/-!
Shallow embedding of the Space Invaders engine core
(src/engine/{config,entity,player,alien,barrier,game_state}.py).

Conventions:
* Python integers become `Int`; Python `//` (floor division) becomes `Int.fdiv`.
* Mutating methods become functions returning the updated structure; methods
  that both mutate and return a value return a pair.
* The derived `rect` of an `Entity` is not carried separately: it is synced to
  `(x, y, width, height)` by `Entity.update` before every use that matters
  here (bullets sync it each tick, barrier segments never move), so collision
  tests read `x`/`y`/`width`/`height` directly.
* `pygame.Rect.colliderect` is strict-overlap (touching edges do not collide).
-/

namespace SpaceInvaders

/-! ### Constants from src/engine/config.py -/

def SCREEN_WIDTH : Int := 800
def SCREEN_HEIGHT : Int := 600
def PLAYER_WIDTH : Int := 60
def PLAYER_HEIGHT : Int := 40
def PLAYER_SPEED : Int := 40
def PLAYER_BULLET_SPEED : Int := 40
def ALIEN_WIDTH : Int := 50
def ALIEN_HEIGHT : Int := 40
def ALIEN_HORIZONTAL_SPEED : Int := 10
def ALIEN_VERTICAL_SPEED : Int := 20
def ALIEN_BULLET_SPEED : Int := 10
def BULLET_WIDTH : Int := 4
def BULLET_HEIGHT : Int := 10

/-- RGB colors as triples. -/
def GREEN : Nat × Nat × Nat := (0, 255, 0)

def RED : Nat × Nat × Nat := (255, 0, 0)

def BLUE : Nat × Nat × Nat := (0, 0, 255)

/-- `pygame.Rect.colliderect`: strict axis-aligned overlap test. -/
def collideRect (x1 y1 w1 h1 x2 y2 w2 h2 : Int) : Bool :=
  decide (x1 < x2 + w2 ∧ y1 < y2 + h2 ∧ x1 + w1 > x2 ∧ y1 + h1 > y2)

/-! ### Player bullet (src/engine/player.py, class Bullet) -/

structure Bullet where
  x : Int
  y : Int
  width : Int
  height : Int
  speed : Int
  active : Bool
deriving Repr, DecidableEq

/-- `Bullet.__init__(x, y)`: centered on `x`, bottom edge at `y`. -/
def Bullet.init (x y : Int) : Bullet :=
  { x := x - Int.fdiv BULLET_WIDTH 2
    y := y - BULLET_HEIGHT
    width := BULLET_WIDTH
    height := BULLET_HEIGHT
    speed := PLAYER_BULLET_SPEED
    active := true }

/-- `Bullet.update`: move up, deactivate past the top boundary. -/
def Bullet.update (b : Bullet) : Bullet :=
  let b1 : Bullet := { b with y := b.y - b.speed }
  if b1.y + b1.height < 0 then { b1 with active := false } else b1

/-! ### Alien bullet (src/engine/alien.py, class AlienBullet) -/

structure AlienBullet where
  x : Int
  y : Int
  width : Int
  height : Int
  speed : Int
  active : Bool
deriving Repr, DecidableEq

/-- `AlienBullet.__init__(x, y)`: centered on `x`, top edge at `y`. -/
def AlienBullet.init (x y : Int) : AlienBullet :=
  { x := x - Int.fdiv BULLET_WIDTH 2
    y := y
    width := BULLET_WIDTH
    height := BULLET_HEIGHT
    speed := ALIEN_BULLET_SPEED
    active := true }

/-- `AlienBullet.update`: move down, deactivate past the display surface's
height (`pygame.display.get_surface().get_height()`, passed as a parameter). -/
def AlienBullet.update (screenHeight : Int) (b : AlienBullet) : AlienBullet :=
  let b1 : AlienBullet := { b with y := b.y + b.speed }
  if b1.y > screenHeight then { b1 with active := false } else b1

/-! ### Player (src/engine/player.py, class Player) -/

structure Player where
  x : Int
  y : Int
  width : Int
  height : Int
  speed : Int
  bullets : List Bullet
  cooldown : Int
  cooldown_time : Int
  lives : Int
  invulnerable : Bool
  invulnerable_time : Int
  invulnerable_duration : Int
  active : Bool
deriving Repr, DecidableEq

/-- `Player.__init__(x, y, lives)`. -/
def Player.init (x y lives : Int) : Player :=
  { x := x - Int.fdiv PLAYER_WIDTH 2
    y := y
    width := PLAYER_WIDTH
    height := PLAYER_HEIGHT
    speed := PLAYER_SPEED
    bullets := []
    cooldown := 0
    cooldown_time := 15
    lives := lives
    invulnerable := false
    invulnerable_time := 0
    invulnerable_duration := 60
    active := true }

/-- `Player.update`: advance bullets and drop inactive ones, tick the
shooting cooldown, tick the invulnerability timer. -/
def Player.update (p : Player) : Player :=
  let bullets := (p.bullets.map Bullet.update).filter (fun b => b.active)
  let cooldown := if p.cooldown > 0 then p.cooldown - 1 else p.cooldown
  if p.invulnerable then
    let t := p.invulnerable_time - 1
    if t ≤ 0 then
      { p with bullets := bullets, cooldown := cooldown,
               invulnerable_time := t, invulnerable := false }
    else
      { p with bullets := bullets, cooldown := cooldown, invulnerable_time := t }
  else
    { p with bullets := bullets, cooldown := cooldown }

/-- `Player.shoot`: fire a bullet if the cooldown allows. -/
def Player.shoot (p : Player) : Player :=
  if p.cooldown = 0 then
    { p with
      bullets := p.bullets ++ [Bullet.init (p.x + Int.fdiv p.width 2) p.y]
      cooldown := p.cooldown_time }
  else p

/-- `Player.take_damage`: returns `(out_of_lives, updated player)`. -/
def Player.take_damage (p : Player) : Bool × Player :=
  if p.invulnerable then (false, p)
  else
    let p1 : Player := { p with lives := p.lives - 1 }
    if p1.lives ≤ 0 then (true, { p1 with active := false })
    else
      (false, { p1 with invulnerable := true,
                        invulnerable_time := p1.invulnerable_duration })

/-- `Player.reset(x, y)`: restore the player for a new game (lives untouched). -/
def Player.reset (p : Player) (x y : Int) : Player :=
  { p with x := x - Int.fdiv PLAYER_WIDTH 2
           y := y
           bullets := []
           cooldown := 0
           active := true
           invulnerable := false
           invulnerable_time := 0 }

/-! ### Barrier segment (src/engine/barrier.py, class BarrierSegment) -/

structure BarrierSegment where
  x : Int
  y : Int
  width : Int
  height : Int
  color : Nat × Nat × Nat
  active : Bool
  barrier_id : Int
  segment_id : Int
  health : Int
deriving Repr, DecidableEq

/-- `BarrierSegment.__init__(x, y, size, barrier_id, segment_id)`. -/
def BarrierSegment.init (x y size barrierId segmentId : Int) : BarrierSegment :=
  { x := x, y := y, width := size, height := size, color := GREEN,
    active := true, barrier_id := barrierId, segment_id := segmentId,
    health := 3 }

/-- `BarrierSegment.take_damage`: returns `(destroyed, updated segment)`. -/
def BarrierSegment.take_damage (s : BarrierSegment) : Bool × BarrierSegment :=
  let s1 : BarrierSegment := { s with health := s.health - 1 }
  let s2 : BarrierSegment :=
    if s1.health = 2 then { s1 with color := (150, 150, 0) }
    else if s1.health = 1 then { s1 with color := (100, 100, 0) }
    else s1
  if s2.health ≤ 0 then (true, { s2 with active := false })
  else (false, s2)

/-- `Entity.collides_with` specialized to a segment against a player bullet:
false if either is inactive, else rectangle overlap. -/
def BarrierSegment.collides_with (s : BarrierSegment) (b : Bullet) : Bool :=
  s.active && b.active &&
    collideRect s.x s.y s.width s.height b.x b.y b.width b.height

/-! ### Barrier (src/engine/barrier.py, classes Barrier and BarrierGroup) -/

structure Barrier where
  x : Int
  y : Int
  width : Int
  height : Int
  id : Int
  segments : List BarrierSegment
  active : Bool
deriving Repr, DecidableEq

/-- `Barrier.update`: drop destroyed segments; deactivate when none remain. -/
def Barrier.update (b : Barrier) : Barrier :=
  let segs := b.segments.filter (fun s => s.active)
  if segs.isEmpty then { b with segments := segs, active := false }
  else { b with segments := segs }

/-- The segment loop of `Barrier.check_collision`: scan in stored order, damage
the first segment colliding with the bullet, then return immediately. -/
def checkSegments (bullet : Bullet) : List BarrierSegment → Bool × List BarrierSegment
  | [] => (false, [])
  | s :: rest =>
    if s.collides_with bullet then (true, (s.take_damage).2 :: rest)
    else
      let r := checkSegments bullet rest
      (r.1, s :: r.2)

/-- `Barrier.check_collision(bullet)`: returns `(hit, updated barrier)`. -/
def Barrier.check_collision (b : Barrier) (bullet : Bullet) : Bool × Barrier :=
  if !b.active || !bullet.active then (false, b)
  else
    let r := checkSegments bullet b.segments
    (r.1, { b with segments := r.2 })

structure BarrierGroup where
  barriers : List Barrier
deriving Repr, DecidableEq

/-- The barrier loop of `BarrierGroup.check_collision`: skip inactive barriers,
stop at the first active barrier whose check reports a hit. -/
def checkBarriers (bullet : Bullet) : List Barrier → Bool × List Barrier
  | [] => (false, [])
  | b :: rest =>
    if b.active then
      let r := b.check_collision bullet
      if r.1 then (true, r.2 :: rest)
      else
        let rr := checkBarriers bullet rest
        (rr.1, r.2 :: rr.2)
    else
      let rr := checkBarriers bullet rest
      (rr.1, b :: rr.2)

/-- `BarrierGroup.check_collision(bullet)`: returns `(hit, updated group)`. -/
def BarrierGroup.check_collision (g : BarrierGroup) (bullet : Bullet) :
    Bool × BarrierGroup :=
  let r := checkBarriers bullet g.barriers
  (r.1, ⟨r.2⟩)

/-! ### Alien and AlienGroup (src/engine/alien.py) -/

structure Alien where
  x : Int
  y : Int
  width : Int
  height : Int
  row : Nat
  col : Nat
  direction : Int
  speed : Int
  id : Int
  points : Int
  active : Bool
deriving Repr, DecidableEq

/-- `Alien.POINTS`: point values by row. -/
def Alien.POINTS : List Int := [30, 20, 20, 10, 10]

/-- `Alien.__init__(x, y, row, col, alien_id)`. -/
def Alien.init (x y : Int) (row col : Nat) (alienId : Int) : Alien :=
  { x := x, y := y, width := ALIEN_WIDTH, height := ALIEN_HEIGHT,
    row := row, col := col, direction := 1, speed := ALIEN_HORIZONTAL_SPEED,
    id := alienId,
    points := if h : row < Alien.POINTS.length then Alien.POINTS.get ⟨row, h⟩ else 10,
    active := true }

def Alien.move_horizontal (a : Alien) : Alien :=
  { a with x := a.x + a.direction * a.speed }

def Alien.move_down (a : Alien) : Alien :=
  { a with y := a.y + ALIEN_VERTICAL_SPEED }

def Alien.reverse_direction (a : Alien) : Alien :=
  { a with direction := a.direction * (-1) }

/-- `Alien.should_reverse`: at the left edge moving left, or at the right edge
moving right. -/
def Alien.should_reverse (a : Alien) : Bool :=
  decide ((a.x ≤ 0 ∧ a.direction < 0) ∨
          (a.x + a.width ≥ SCREEN_WIDTH ∧ a.direction > 0))

/-- `Alien.create_bullet`: bullet at the alien's bottom center. -/
def Alien.create_bullet (a : Alien) : AlienBullet :=
  AlienBullet.init (a.x + Int.fdiv a.width 2) (a.y + a.height)

structure AlienGroup where
  aliens : List Alien
  bullets : List AlienBullet
  next_id : Int
deriving Repr, DecidableEq

/-- `AlienGroup.get_active_aliens`. -/
def AlienGroup.get_active_aliens (g : AlienGroup) : List Alien :=
  g.aliens.filter (fun a => a.active)

/-- `AlienGroup.update`. The stochastic fire decision
(`random.random() < firing_chance`) is abstracted as the oracle `fire`,
queried exactly where the code queries `alien.should_fire()` (after the
alien has moved); `screenHeight` stands for the display surface height read
by `AlienBullet.update`. Neither influences alien kinematics. -/
def AlienGroup.update (fire : Alien → Bool) (screenHeight : Int)
    (g : AlienGroup) : AlienGroup :=
  let shouldReverse := (g.get_active_aliens).any Alien.should_reverse
  let shouldMoveDown := shouldReverse
  let aliens1 :=
    if shouldReverse then
      g.aliens.map (fun a => if a.active then a.reverse_direction else a)
    else g.aliens
  let aliens2 := aliens1.map (fun a =>
    if a.active then
      (if shouldMoveDown then a.move_down else a).move_horizontal
    else a)
  let newBullets := (aliens2.filter (fun a => a.active && fire a)).map
    Alien.create_bullet
  let bullets := ((g.bullets ++ newBullets).map
    (AlienBullet.update screenHeight)).filter (fun b => b.active)
  { g with aliens := aliens2, bullets := bullets }

/-! ### Game state (src/engine/game_state.py) -/

inductive GameState where
  | menu
  | playing
  | gameOver
deriving Repr, DecidableEq

structure GameStateManager where
  current_state : GameState
  score : Int
  high_score : Int
deriving Repr, DecidableEq

/-- `GameStateManager.__init__(initial_state)`. -/
def GameStateManager.init (s : GameState) : GameStateManager :=
  { current_state := s, score := 0, high_score := 0 }

def GameStateManager.change_state (m : GameStateManager) (s : GameState) :
    GameStateManager :=
  { m with current_state := s }

def GameStateManager.start_game (m : GameStateManager) : GameStateManager :=
  { m with current_state := GameState.playing, score := 0 }

def GameStateManager.game_over (m : GameStateManager) : GameStateManager :=
  let m1 : GameStateManager := { m with current_state := GameState.gameOver }
  if m1.score > m1.high_score then { m1 with high_score := m1.score } else m1

def GameStateManager.return_to_menu (m : GameStateManager) : GameStateManager :=
  { m with current_state := GameState.menu }

def GameStateManager.add_score (m : GameStateManager) (points : Int) :
    GameStateManager :=
  { m with score := m.score + points }

/-- The public operations of `GameStateManager`, for reasoning about
arbitrary call sequences. -/
inductive GSOp where
  | startGame
  | gameOver
  | returnToMenu
  | addScore (points : Int)
  | changeState (s : GameState)
deriving Repr, DecidableEq

def GameStateManager.step (m : GameStateManager) : GSOp → GameStateManager
  | GSOp.startGame => m.start_game
  | GSOp.gameOver => m.game_over
  | GSOp.returnToMenu => m.return_to_menu
  | GSOp.addScore p => m.add_score p
  | GSOp.changeState s => m.change_state s

def GameStateManager.run (m : GameStateManager) (ops : List GSOp) :
    GameStateManager :=
  List.foldl GameStateManager.step m ops

/-! ### Theorems -/

/-- Claim C2: every call to `BarrierSegment.take_damage` decrements health by
exactly 1 and returns `true` exactly when the new health is ≤ 0, at which
point the segment is deactivated and never before; concretely, from the
initial health of 3, hit 1 leaves health 2 (active, `false`), hit 2 leaves
health 1 (active, `false`), hit 3 leaves health 0 (deactivated, `true`). -/
theorem barrierSegment_take_damage_spec (s : BarrierSegment) :
    ((s.take_damage).2.health = s.health - 1)
    ∧ ((s.take_damage).1 = true ↔ s.health - 1 ≤ 0)
    ∧ (s.health - 1 ≤ 0 → (s.take_damage).2.active = false)
    ∧ (s.health - 1 > 0 → (s.take_damage).2.active = s.active)
    ∧ (((BarrierSegment.init 0 0 10 1 0).take_damage).1 = false
        ∧ ((BarrierSegment.init 0 0 10 1 0).take_damage).2.health = 2
        ∧ ((BarrierSegment.init 0 0 10 1 0).take_damage).2.active = true
        ∧ ((((BarrierSegment.init 0 0 10 1 0).take_damage).2.take_damage).1 = false
        ∧ (((BarrierSegment.init 0 0 10 1 0).take_damage).2.take_damage).2.health = 1
        ∧ (((BarrierSegment.init 0 0 10 1 0).take_damage).2.take_damage).2.active = true)
        ∧ (((((BarrierSegment.init 0 0 10 1 0).take_damage).2.take_damage).2.take_damage).1 = true
        ∧ ((((BarrierSegment.init 0 0 10 1 0).take_damage).2.take_damage).2.take_damage).2.health = 0
        ∧ ((((BarrierSegment.init 0 0 10 1 0).take_damage).2.take_damage).2.take_damage).2.active = false)) := by
  refine ⟨?_, ?_, ?_, ?_, by decide⟩ <;>
    simp only [BarrierSegment.take_damage] <;>
    split_ifs <;> simp_all

/-- Witness for C2 at a concrete damaged segment (health 1, active). -/
theorem barrierSegment_take_damage_spec_witness :
    ({ BarrierSegment.init 0 0 10 1 0 with health := 1 } : BarrierSegment).take_damage.1 = true :=
  (barrierSegment_take_damage_spec
      { BarrierSegment.init 0 0 10 1 0 with health := 1 }).2.1.mpr (by decide)

/-- Claim C3: `Player.take_damage` ignores the hit entirely while
invulnerable (returns `false`, no state change); otherwise it decrements
lives, and either deactivates the player and returns `true` when the new
lives count is ≤ 0, or arms invulnerability for the fixed duration and
returns `false`. A player with one life and no invulnerability ends with
0 lives, deactivated, and the call reports fatal. -/
theorem player_take_damage_spec (p : Player) :
    (p.invulnerable = true → p.take_damage = (false, p))
    ∧ (p.invulnerable = false →
        ((p.take_damage).2.lives = p.lives - 1)
        ∧ (p.lives - 1 ≤ 0 →
            p.take_damage = (true, { p with lives := p.lives - 1, active := false }))
        ∧ (p.lives - 1 > 0 →
            p.take_damage = (false, { p with
              lives := p.lives - 1
              invulnerable := true
              invulnerable_time := p.invulnerable_duration })))
    ∧ (p.invulnerable = false → p.lives = 1 →
        (p.take_damage).1 = true ∧ (p.take_damage).2.lives = 0
        ∧ (p.take_damage).2.active = false) := by
  refine ⟨fun h => ?_, fun h => ⟨?_, fun hl => ?_, fun hl => ?_⟩,
    fun h hl => ?_⟩ <;>
    simp only [Player.take_damage, h] <;> split_ifs <;> simp_all <;> omega

/-- Witness for C3 at a concrete one-life player. -/
theorem player_take_damage_spec_witness :
    ((Player.init 400 500 1).take_damage).1 = true
    ∧ ((Player.init 400 500 1).take_damage).2.lives = 0
    ∧ ((Player.init 400 500 1).take_damage).2.active = false :=
  (player_take_damage_spec (Player.init 400 500 1)).2.2 rfl rfl

/-- Claim C10: `Player.reset(x, y)` recenters the player on `x`, moves it to
`y`, empties the bullet list, zeroes the cooldown, reactivates the player and
clears invulnerability, while leaving lives (and the size/speed/timing
constants) unchanged. -/
theorem player_reset_spec (p : Player) (x y : Int) :
    ((p.reset x y).lives = p.lives)
    ∧ ((p.reset x y).x = x - Int.fdiv PLAYER_WIDTH 2)
    ∧ ((p.reset x y).y = y)
    ∧ ((p.reset x y).bullets = [])
    ∧ ((p.reset x y).cooldown = 0)
    ∧ ((p.reset x y).active = true)
    ∧ ((p.reset x y).invulnerable = false)
    ∧ ((p.reset x y).invulnerable_time = 0)
    ∧ ((p.reset x y).width = p.width)
    ∧ ((p.reset x y).height = p.height)
    ∧ ((p.reset x y).speed = p.speed)
    ∧ ((p.reset x y).cooldown_time = p.cooldown_time)
    ∧ ((p.reset x y).invulnerable_duration = p.invulnerable_duration) := by
  refine ⟨rfl, rfl, rfl, rfl, rfl, rfl, rfl, rfl, rfl, rfl, rfl, rfl, rfl⟩

/-- Claim C8: a player bullet's update subtracts its constant speed from `y`
and deactivates it exactly when the resulting bottom edge is above the top
boundary (`y + height < 0`); an alien bullet's update adds its constant speed
to `y` and deactivates it exactly when the resulting top edge is below the
visible height; neither update ever changes `x`. -/
theorem bullet_update_spec (b : Bullet) (ab : AlienBullet) (h : Int) :
    ((b.update).y = b.y - b.speed)
    ∧ ((b.update).x = b.x)
    ∧ ((b.update).active = (b.active && !decide (b.y - b.speed + b.height < 0)))
    ∧ ((AlienBullet.update h ab).y = ab.y + ab.speed)
    ∧ ((AlienBullet.update h ab).x = ab.x)
    ∧ ((AlienBullet.update h ab).active
        = (ab.active && !decide (ab.y + ab.speed > h))) := by
  refine ⟨?_, ?_, ?_, ?_, ?_, ?_⟩ <;>
    simp only [Bullet.update, AlienBullet.update] <;>
    split_ifs <;> simp_all

/-- Claim C7: `Player.shoot` is a no-op when the cooldown is nonzero; when the
cooldown is 0 it appends exactly one bullet — centered on the player's
horizontal center, with its bottom edge at the player's top — and resets the
cooldown to `cooldown_time`, which `Player.__init__` fixes at 15; all other
fields are untouched in both cases. -/
theorem player_shoot_spec (p : Player) :
    (p.cooldown ≠ 0 → p.shoot = p)
    ∧ (p.cooldown = 0 →
        p.shoot = { p with
          bullets := p.bullets ++ [Bullet.init (p.x + Int.fdiv p.width 2) p.y]
          cooldown := p.cooldown_time })
    ∧ ((Bullet.init (p.x + Int.fdiv p.width 2) p.y).x
        = p.x + Int.fdiv p.width 2 - Int.fdiv BULLET_WIDTH 2)
    ∧ ((Bullet.init (p.x + Int.fdiv p.width 2) p.y).y = p.y - BULLET_HEIGHT)
    ∧ (∀ x y l : Int, (Player.init x y l).cooldown_time = 15) := by
  refine ⟨fun h => ?_, fun h => ?_, rfl, rfl, fun _ _ _ => rfl⟩ <;>
    simp [Player.shoot, h]

/-- Witness for C7 at a concrete freshly initialized player (cooldown 0). -/
theorem player_shoot_spec_witness :
    (Player.init 400 500 3).shoot = { Player.init 400 500 3 with
      bullets := (Player.init 400 500 3).bullets ++
        [Bullet.init ((Player.init 400 500 3).x +
          Int.fdiv (Player.init 400 500 3).width 2) (Player.init 400 500 3).y]
      cooldown := (Player.init 400 500 3).cooldown_time } :=
  (player_shoot_spec (Player.init 400 500 3)).2.1 rfl

/-- Helper for C4: a single operation never decreases the high score. -/
lemma step_high_score_mono (m : GameStateManager) (op : GSOp) :
    m.high_score ≤ (m.step op).high_score := by
  cases op <;>
    simp only [GameStateManager.step, GameStateManager.start_game,
      GameStateManager.game_over, GameStateManager.return_to_menu,
      GameStateManager.add_score, GameStateManager.change_state, le_refl]
  split_ifs <;> simp <;> omega

/-- Claim C4: over any sequence of `GameStateManager` operations the high
score never decreases; `game_over` moves to the game-over state and raises
the high score to `max high_score score`; `start_game` moves to the playing
state from anywhere, resets the score to 0 and leaves the high score
untouched. -/
theorem gameStateManager_spec :
    (∀ (m : GameStateManager) (ops : List GSOp),
        m.high_score ≤ (m.run ops).high_score)
    ∧ (∀ m : GameStateManager,
        (m.game_over).current_state = GameState.gameOver
        ∧ (m.game_over).high_score = max m.high_score m.score
        ∧ (m.game_over).score = m.score)
    ∧ (∀ m : GameStateManager,
        (m.start_game).current_state = GameState.playing
        ∧ (m.start_game).score = 0
        ∧ (m.start_game).high_score = m.high_score) := by
  refine ⟨?_, fun m => ⟨?_, ?_, ?_⟩, fun m => ⟨rfl, rfl, rfl⟩⟩
  · intro m ops
    induction ops generalizing m with
    | nil => exact le_refl _
    | cons op ops ih =>
      exact le_trans (step_high_score_mono m op) (ih (m.step op))
  · simp only [GameStateManager.game_over]
    split_ifs <;> rfl
  · simp only [GameStateManager.game_over]
    split_ifs with h
    · exact (max_eq_right h.le).symm
    · exact (max_eq_left (le_of_not_lt h)).symm
  · simp only [GameStateManager.game_over]
    split_ifs <;> rfl

/-- Claim C9: `Barrier.update` first drops every inactive segment, then the
barrier's active flag is false exactly when no segments remain (for a
barrier that was active going in, as every barrier updated by
`BarrierGroup.update` is); in particular an empty post-filter segment list
always forces deactivation. -/
theorem barrier_update_spec (b : Barrier) :
    ((b.update).segments = b.segments.filter (fun s => s.active))
    ∧ (b.active = true →
        ((b.update).active = false ↔ (b.update).segments = []))
    ∧ (b.segments.filter (fun s => s.active) = [] →
        (b.update).active = false ∧ (b.update).segments = []) := by
  have hseg : (b.update).segments = b.segments.filter (fun s => s.active) := by
    simp only [Barrier.update]
    split_ifs <;> rfl
  have hact : (b.update).active
      = if (b.segments.filter (fun s => s.active)).isEmpty then false
        else b.active := by
    simp only [Barrier.update]
    split_ifs <;> rfl
  refine ⟨hseg, fun ha => ?_, fun he => ?_⟩
  · rw [hact, hseg]
    by_cases hemp : b.segments.filter (fun s => s.active) = []
    · simp [hemp]
    · have hf : (b.segments.filter (fun s => s.active)).isEmpty = false := by
        simpa [List.isEmpty_iff] using hemp
      simp [hf, hemp, ha]
  · have ht : (b.segments.filter (fun s => s.active)).isEmpty = true := by
      simp [List.isEmpty_iff, he]
    exact ⟨by rw [hact, ht]; simp, by rw [hseg, he]⟩

/-- Witness for C9 at a concrete active barrier whose one segment has been
destroyed. -/
theorem barrier_update_spec_witness :
    ((Barrier.mk 0 0 80 60 1
        [{ BarrierSegment.init 0 0 10 1 0 with active := false, health := 0 }]
        true).update.active = false
      ↔ (Barrier.mk 0 0 80 60 1
        [{ BarrierSegment.init 0 0 10 1 0 with active := false, health := 0 }]
        true).update.segments = []) :=
  (barrier_update_spec
    (Barrier.mk 0 0 80 60 1
      [{ BarrierSegment.init 0 0 10 1 0 with active := false, health := 0 }]
      true)).2.1 rfl

/-- Helper for C6: `Player.take_damage` on an invulnerable player returns
`false` and leaves the player untouched. -/
lemma take_damage_of_invulnerable (q : Player) (h : q.invulnerable = true) :
    q.take_damage = (false, q) := by
  simp [Player.take_damage, h]

/-- Helper for C6: one `Player.update` on an invulnerable player with a
strictly positive remaining timer above 1 keeps invulnerability and
decrements the timer; at timer 1 it clears the flag. -/
lemma player_update_invulnerable_fields (p : Player)
    (h : p.invulnerable = true) :
    (1 < p.invulnerable_time →
      (p.update).invulnerable = true
      ∧ (p.update).invulnerable_time = p.invulnerable_time - 1)
    ∧ (p.invulnerable_time ≤ 1 → (p.update).invulnerable = false) := by
  constructor
  · intro hgt
    have hne : ¬(p.invulnerable_time - 1 ≤ 0) := by omega
    simp [Player.update, h, hne]
  · intro hle
    have hyes : p.invulnerable_time - 1 ≤ 0 := by omega
    simp [Player.update, h, hyes]

/-- Helper for C6: iterating `Player.update` `k` times while the timer stays
positive keeps invulnerability and subtracts `k` from the timer. -/
lemma player_iterate_invulnerable :
    ∀ (k : Nat) (p : Player), p.invulnerable = true →
      (k : Int) < p.invulnerable_time →
      (Player.update^[k] p).invulnerable = true
      ∧ (Player.update^[k] p).invulnerable_time = p.invulnerable_time - k := by
  intro k
  induction k with
  | zero =>
    intro p h _
    simp [h]
  | succ k ih =>
    intro p h hk
    have hcast : ((k + 1 : Nat) : Int) = (k : Int) + 1 := by push_cast; ring
    rw [hcast] at hk
    have hgt : 1 < p.invulnerable_time := by omega
    obtain ⟨h1, h2⟩ := (player_update_invulnerable_fields p h).1 hgt
    have hk2 : (k : Int) < (p.update).invulnerable_time := by omega
    obtain ⟨h3, h4⟩ := ih (p.update) h1 hk2
    rw [Function.iterate_succ_apply]
    refine ⟨h3, ?_⟩
    rw [h4, h2, hcast]
    ring

/-- Claim C6: once `Player.take_damage` arms invulnerability (non-fatal hit
on a vulnerable player whose `invulnerable_duration` is the fixed 60), the
player stays invulnerable — every further `take_damage` returns `false` and
changes nothing — for each of the next 59 `Player.update` ticks, and the
60th update clears the flag, restoring normal damage handling. -/
theorem player_invulnerability_duration (p : Player)
    (h1 : p.invulnerable = false) (h2 : p.lives - 1 > 0)
    (h3 : p.invulnerable_duration = 60) :
    ((p.take_damage).2.invulnerable = true)
    ∧ ((p.take_damage).2.invulnerable_time = 60)
    ∧ (∀ k : Nat, k < 60 →
        (Player.update^[k] (p.take_damage).2).invulnerable = true
        ∧ (Player.update^[k] (p.take_damage).2).take_damage
            = (false, Player.update^[k] (p.take_damage).2))
    ∧ ((Player.update^[60] (p.take_damage).2).invulnerable = false) := by
  have hno : ¬(p.lives - 1 ≤ 0) := by omega
  have hq : (p.take_damage).2 = { p with
      lives := p.lives - 1
      invulnerable := true
      invulnerable_time := p.invulnerable_duration } := by
    simp [Player.take_damage, h1, hno]
  have hqi : (p.take_damage).2.invulnerable = true := by rw [hq]
  have hqt : (p.take_damage).2.invulnerable_time = 60 := by rw [hq]; exact h3
  have hstep : ∀ k : Nat, k < 60 →
      (Player.update^[k] (p.take_damage).2).invulnerable = true
      ∧ (Player.update^[k] (p.take_damage).2).invulnerable_time = 60 - (k : Int) := by
    intro k hk
    have hlt : (k : Int) < (p.take_damage).2.invulnerable_time := by
      rw [hqt]; exact_mod_cast hk
    have := player_iterate_invulnerable k (p.take_damage).2 hqi hlt
    rw [hqt] at this
    exact this
  refine ⟨hqi, hqt, fun k hk => ?_, ?_⟩
  · obtain ⟨hi, _⟩ := hstep k hk
    exact ⟨hi, take_damage_of_invulnerable _ hi⟩
  · obtain ⟨hi, ht⟩ := hstep 59 (by omega)
    have h59 : (59 : Nat) + 1 = 60 := rfl
    rw [← h59, Function.iterate_succ_apply']
    refine (player_update_invulnerable_fields _ hi).2 ?_
    rw [ht]
    norm_num

/-- Witness for C6: a fresh three-life player hit once is invulnerable, and
60 updates later is vulnerable again. -/
theorem player_invulnerability_duration_witness :
    (((Player.init 400 500 3).take_damage).2.invulnerable = true)
    ∧ ((Player.update^[60] ((Player.init 400 500 3).take_damage).2).invulnerable
        = false) :=
  ⟨(player_invulnerability_duration (Player.init 400 500 3) rfl (by decide) rfl).1,
   (player_invulnerability_duration (Player.init 400 500 3) rfl (by decide) rfl).2.2.2⟩

/-- Helper for C5: the segment scan leaves the list untouched and reports no
hit when no segment collides with the bullet. -/
lemma checkSegments_of_no_hit (bullet : Bullet) :
    ∀ l : List BarrierSegment, (∀ s ∈ l, s.collides_with bullet = false) →
      checkSegments bullet l = (false, l) := by
  intro l
  induction l with
  | nil => intro _; rfl
  | cons s rest ih =>
    intro h
    have hs : s.collides_with bullet = false := h s (by simp)
    have hr := ih (fun t ht => h t (by simp [ht]))
    simp [checkSegments, hs, hr]

/-- Helper for C5: the segment scan damages exactly the first colliding
segment and returns immediately, leaving every other segment untouched. -/
lemma checkSegments_first_hit (bullet : Bullet) :
    ∀ (pre : List BarrierSegment) (s : BarrierSegment)
      (post : List BarrierSegment),
      (∀ t ∈ pre, t.collides_with bullet = false) →
      s.collides_with bullet = true →
      checkSegments bullet (pre ++ s :: post)
        = (true, pre ++ (s.take_damage).2 :: post) := by
  intro pre
  induction pre with
  | nil =>
    intro s post _ hs
    simp [checkSegments, hs]
  | cons t pre ih =>
    intro s post hpre hs
    have ht : t.collides_with bullet = false := hpre t (by simp)
    have hr := ih s post (fun u hu => hpre u (by simp [hu])) hs
    simp [checkSegments, ht, hr]

/-- Helper for C5: a scan reporting no hit changed nothing. -/
lemma checkSegments_no_hit_id (bullet : Bullet) :
    ∀ l : List BarrierSegment, (checkSegments bullet l).1 = false →
      (checkSegments bullet l).2 = l := by
  intro l
  induction l with
  | nil => intro _; rfl
  | cons s rest ih =>
    intro h
    cases hs : s.collides_with bullet with
    | true => simp [checkSegments, hs] at h
    | false =>
      simp only [checkSegments, hs, Bool.false_eq_true, if_false] at h ⊢
      simp [ih h]

/-- Helper for C5: `Barrier.check_collision` reporting no hit changed
nothing. -/
lemma check_collision_no_hit_id (b : Barrier) (bullet : Bullet)
    (h : (b.check_collision bullet).1 = false) :
    (b.check_collision bullet).2 = b := by
  by_cases hg : (!b.active || !bullet.active) = true
  · simp [Barrier.check_collision, hg]
  · simp only [Barrier.check_collision, hg, Bool.false_eq_true, if_false] at h ⊢
    rw [checkSegments_no_hit_id bullet b.segments h]

/-- Helper for C5: the barrier scan skips inactive barriers, leaves
missed active barriers untouched, and stops at the first active
barrier reporting a hit. -/
lemma checkBarriers_first_hit (bullet : Bullet) :
    ∀ (pre : List Barrier) (c : Barrier) (post : List Barrier),
      (∀ d ∈ pre, d.active = false ∨ (d.check_collision bullet).1 = false) →
      c.active = true → (c.check_collision bullet).1 = true →
      checkBarriers bullet (pre ++ c :: post)
        = (true, pre ++ (c.check_collision bullet).2 :: post) := by
  intro pre
  induction pre with
  | nil =>
    intro c post _ hc hhit
    simp [checkBarriers, hc, hhit]
  | cons d pre ih =>
    intro c post hpre hc hhit
    have hr := ih c post (fun u hu => hpre u (by simp [hu])) hc hhit
    cases hda : d.active with
    | false => simp [checkBarriers, hda, hr]
    | true =>
      have hd : (d.check_collision bullet).1 = false := by
        rcases hpre d (by simp) with h | h
        · rw [hda] at h; cases h
        · exact h
      simp [checkBarriers, hda, hd, hr, check_collision_no_hit_id d bullet hd]

/-- Claim C5: `Barrier.check_collision` damages at most one segment per
call — it returns `(false, unchanged)` when the barrier or the bullet is
inactive or when no segment overlaps, and otherwise damages exactly the
first overlapping segment in stored order and short-circuits, leaving every
other segment untouched; `BarrierGroup.check_collision` walks the barriers
in construction order, skips inactive ones, leaves missed barriers
untouched, and stops at the first active barrier reporting a hit. -/
theorem barrier_collision_spec (b : Barrier) (bullet : Bullet) :
    ((b.active = false ∨ bullet.active = false) →
        b.check_collision bullet = (false, b))
    ∧ ((∀ s ∈ b.segments, s.collides_with bullet = false) →
        b.check_collision bullet = (false, b))
    ∧ (∀ (pre : List BarrierSegment) (s : BarrierSegment)
        (post : List BarrierSegment),
        b.active = true → bullet.active = true →
        b.segments = pre ++ s :: post →
        (∀ t ∈ pre, t.collides_with bullet = false) →
        s.collides_with bullet = true →
        b.check_collision bullet
          = (true, { b with segments := pre ++ (s.take_damage).2 :: post }))
    ∧ (∀ (g : BarrierGroup) (pre : List Barrier) (c : Barrier)
        (post : List Barrier),
        g.barriers = pre ++ c :: post →
        (∀ d ∈ pre, d.active = false ∨ (d.check_collision bullet).1 = false) →
        c.active = true → (c.check_collision bullet).1 = true →
        g.check_collision bullet
          = (true, BarrierGroup.mk (pre ++ (c.check_collision bullet).2 :: post))) := by
  refine ⟨fun h => ?_, fun h => ?_, fun pre s post ha hba hseg hpre hs => ?_,
    fun g pre c post hgb hpre hc hhit => ?_⟩
  · rcases h with h | h <;> simp [Barrier.check_collision, h]
  · by_cases hg : (!b.active || !bullet.active) = true
    · simp [Barrier.check_collision, hg]
    · simp [Barrier.check_collision, hg, checkSegments_of_no_hit bullet b.segments h]
  · have hg : (!b.active || !bullet.active) = false := by simp [ha, hba]
    simp [Barrier.check_collision, hg, hseg,
      checkSegments_first_hit bullet pre s post hpre hs]
  · simp [BarrierGroup.check_collision, hgb,
      checkBarriers_first_hit bullet pre c post hpre hc hhit]

/-- Witness for C5: a bullet over the second of three segments damages that
segment only. -/
theorem barrier_collision_spec_witness :
    (Barrier.mk 0 0 80 60 1
        [BarrierSegment.init 0 0 10 1 0, BarrierSegment.init 10 0 10 1 1,
          BarrierSegment.init 20 0 10 1 2] true).check_collision
        (Bullet.mk 12 0 4 10 40 true)
      = (true, { (Barrier.mk 0 0 80 60 1
          [BarrierSegment.init 0 0 10 1 0, BarrierSegment.init 10 0 10 1 1,
            BarrierSegment.init 20 0 10 1 2] true) with
          segments := [BarrierSegment.init 0 0 10 1 0] ++
            ((BarrierSegment.init 10 0 10 1 1).take_damage).2 ::
            [BarrierSegment.init 20 0 10 1 2] }) :=
  (barrier_collision_spec
      (Barrier.mk 0 0 80 60 1
        [BarrierSegment.init 0 0 10 1 0, BarrierSegment.init 10 0 10 1 1,
          BarrierSegment.init 20 0 10 1 2] true)
      (Bullet.mk 12 0 4 10 40 true)).2.2.1
    [BarrierSegment.init 0 0 10 1 0] (BarrierSegment.init 10 0 10 1 1)
    [BarrierSegment.init 20 0 10 1 2] rfl rfl rfl (by decide) (by decide)

/-- Claim C1: in `AlienGroup.update` the reversal condition is a single
logical OR of `should_reverse` over the active aliens. When it is false, no
alien changes direction or descends: each active alien only moves
horizontally along its current direction. When it is true, every active
alien reverses and descends by `ALIEN_VERTICAL_SPEED` exactly once that
tick, and its horizontal step already uses the reversed direction (the
descent and reversal land before the horizontal move). Inactive aliens
never move. -/
theorem alienGroup_update_spec (fire : Alien → Bool) (screenHeight : Int)
    (g : AlienGroup) :
    (((g.get_active_aliens).any Alien.should_reverse) = false →
      (g.update fire screenHeight).aliens
        = g.aliens.map (fun a =>
            if a.active then { a with x := a.x + a.direction * a.speed }
            else a))
    ∧ (((g.get_active_aliens).any Alien.should_reverse) = true →
      (g.update fire screenHeight).aliens
        = g.aliens.map (fun a =>
            if a.active then { a with
              direction := -a.direction
              y := a.y + ALIEN_VERTICAL_SPEED
              x := a.x + -a.direction * a.speed }
            else a)) := by
  constructor
  · intro h
    simp only [AlienGroup.update, h, Bool.false_eq_true, if_false]
    apply List.map_congr_left
    intro a _
    by_cases ha : a.active <;> simp [ha, Alien.move_horizontal]
  · intro h
    simp only [AlienGroup.update, h, if_true, List.map_map]
    apply List.map_congr_left
    intro a _
    by_cases ha : a.active <;>
      simp [ha, Function.comp, Alien.reverse_direction, Alien.move_down,
        Alien.move_horizontal, mul_neg_one]

/-- Witness for C1, the spec's concrete scenario: a 1×2 row whose rightmost
alien sits at the right edge moving right; after the update both aliens
have reversed, descended once, and stepped left. -/
theorem alienGroup_update_spec_witness :
    ((AlienGroup.mk [Alien.init 640 100 0 0 1, Alien.init 750 100 0 1 2] [] 3).update
        (fun _ => false) 600).aliens
      = (AlienGroup.mk [Alien.init 640 100 0 0 1, Alien.init 750 100 0 1 2] [] 3).aliens.map
          (fun a =>
            if a.active then { a with
              direction := -a.direction
              y := a.y + ALIEN_VERTICAL_SPEED
              x := a.x + -a.direction * a.speed }
            else a) :=
  (alienGroup_update_spec (fun _ => false) 600
      (AlienGroup.mk [Alien.init 640 100 0 0 1, Alien.init 750 100 0 1 2] [] 3)).2
    (by decide)

end SpaceInvaders
